import Mathlib

/-!
Shallow embedding of the spotify-dj Just-In-Time queue injection engine:
the shadow queue store (`queue_manager.py`), the playback timing decisions
(`spotify_client.py`), the scheduler loop's edge detection, eligibility and
retry path (`queue_sync.py`), and the configuration constants (`config.py`).
External collaborators (the track resolver, the playback oracle, the
injection executor) are passed in as function parameters, mirroring the
boundaries the source code calls out to.
-/

namespace SpotifyDJ

/-- A raw input song dict with format with title and artist keys; `none`
models a missing key, and the empty string a present-but-falsy value
(Python `song.get` followed by an `if not title or not artist` check). -/
structure Song where
  title : Option String
  artist : Option String
deriving DecidableEq

/-- A shadow-queue entry after successful resolution: `queue_manager.py`
stores dicts with title, artist and the resolved Spotify track uri. -/
structure ResolvedSong where
  title : String
  artist : String
  uri : String
deriving DecidableEq

/-- One loop iteration of the resolution loop shared by
`QueueManager.__init__` and `QueueManager.update_queue`
(`queue_manager.py` lines 31-49 and 64-81): songs with a missing or empty
title or artist are skipped, `search_track` is consulted, and items whose
search returns `None` are dropped with a warning. The `resolver` parameter
is the external `SpotifyClient.search_track` collaborator. -/
def resolveSong (resolver : String → String → Option String) (s : Song) :
    Option ResolvedSong :=
  match s.title, s.artist with
  | some t, some a =>
    if t = "" ∨ a = "" then none
    else
      match resolver t a with
      | some uri => some ⟨t, a, uri⟩
      | none => none
  | _, _ => none

/-- The full resolution pass: each input song is resolved in order and
failed resolutions are dropped, exactly the list built by the `for song in
songs_list` loops of `queue_manager.py`. -/
def resolveSongs (resolver : String → String → Option String)
    (songs : List Song) : List ResolvedSong :=
  songs.filterMap (resolveSong resolver)

/-- State of `QueueManager` (`queue_manager.py`): the resolved song list
`songs_with_uris` and the cursor `current_index`. The cursor is a natural
number: it starts at 0 and is only ever incremented or reset to 0 in the
source, so it can never go negative. -/
structure QueueManager where
  songs_with_uris : List ResolvedSong
  current_index : Nat
deriving DecidableEq

namespace QueueManager

/-- `QueueManager.__init__` (`queue_manager.py` lines 16-49): resolves every
input song immediately and starts the cursor at 0. -/
def mkInitial (resolver : String → String → Option String)
    (songs_list : List Song) : QueueManager :=
  ⟨resolveSongs resolver songs_list, 0⟩

/-- `QueueManager.update_queue` (`queue_manager.py` lines 51-81): under the
lock, rebuilds `songs_with_uris` from the new list and resets
`current_index` to 0. The previous state is discarded entirely. -/
def update_queue (resolver : String → String → Option String)
    (_qm : QueueManager) (new_songs_list : List Song) : QueueManager :=
  ⟨resolveSongs resolver new_songs_list, 0⟩

/-- `QueueManager.get_next_song` (`queue_manager.py` lines 83-97): if the
cursor has reached the end, return `None` and leave the state alone;
otherwise return the (title, artist) at the cursor and advance it by one. -/
def get_next_song (qm : QueueManager) :
    Option (String × String) × QueueManager :=
  if h : qm.songs_with_uris.length ≤ qm.current_index then (none, qm)
  else
    let song := qm.songs_with_uris.get ⟨qm.current_index, by omega⟩
    (some (song.title, song.artist),
      { qm with current_index := qm.current_index + 1 })

/-- `QueueManager.peek_next_song` (`queue_manager.py` lines 99-112): same
lookup as `get_next_song` but without advancing the cursor. -/
def peek_next_song (qm : QueueManager) : Option (String × String) :=
  if h : qm.songs_with_uris.length ≤ qm.current_index then none
  else
    let song := qm.songs_with_uris.get ⟨qm.current_index, by omega⟩
    some (song.title, song.artist)

/-- `QueueManager.get_next_track_uri` (`queue_manager.py` lines 114-126):
returns the uri at the cursor without advancing it, or `None` at the end. -/
def get_next_track_uri (qm : QueueManager) : Option String :=
  if h : qm.songs_with_uris.length ≤ qm.current_index then none
  else some (qm.songs_with_uris.get ⟨qm.current_index, by omega⟩).uri

/-- `QueueManager.is_empty` (`queue_manager.py` lines 128-137). -/
def is_empty (qm : QueueManager) : Bool :=
  decide (qm.songs_with_uris.length ≤ qm.current_index)

/-- `QueueManager.queue_length` (`queue_manager.py` lines 139-148):
`max(0, len(self.songs_with_uris) - self.current_index)` over Python
integers, so the result is an integer. -/
def queue_length (qm : QueueManager) : Int :=
  max 0 ((qm.songs_with_uris.length : Int) - (qm.current_index : Int))

end QueueManager

/- Configuration constants of `JITConfig` (`config.py` lines 81-97).
Durations are rationals measured in seconds. -/
namespace JITConfig

def INJECTION_THRESHOLD : ℚ := 15

def POLL_INTERVAL : ℚ := 3 / 2

def RETRY_ATTEMPTS : Nat := 3

def RETRY_DELAY : ℚ := 1 / 2

end JITConfig

/-- Observable events of `QueueManager.update_queue` relevant to locking:
acquiring and releasing `self._lock`, the reset of `songs_with_uris` and
`current_index` (the state swap), and each outgoing
`self.client.search_track` call (external, network-bound I/O). -/
inductive QEvent where
  | lockAcquire
  | stateSwap
  | resolveCall (title artist : String)
  | lockRelease
deriving DecidableEq

/-- Whether an event is a `search_track` resolver call. -/
def QEvent.isResolveCall : QEvent → Bool
  | QEvent.resolveCall _ _ => true
  | _ => false

/-- The `search_track` calls issued by the `for song in new_songs_list` loop
of `update_queue` (`queue_manager.py` lines 64-81), in source order: songs
with a missing or empty title or artist are skipped before any call is
made, every other song triggers exactly one call. -/
def resolveCallEvents : List Song → List QEvent
  | [] => []
  | s :: rest =>
    match s.title, s.artist with
    | some t, some a =>
      if t = "" ∨ a = "" then resolveCallEvents rest
      else QEvent.resolveCall t a :: resolveCallEvents rest
    | _, _ => resolveCallEvents rest

/-- Event trace of `QueueManager.update_queue` exactly as written in the
source (`queue_manager.py` lines 60-81): the `with self._lock:` block is
entered first, the sequence and cursor are reset, every `search_track` call
happens inside the block, and the lock is released when the block ends. -/
def update_queue_trace (new_songs_list : List Song) : List QEvent :=
  QEvent.lockAcquire :: QEvent.stateSwap ::
    (resolveCallEvents new_songs_list ++ [QEvent.lockRelease])

/-- Pairs each event of a trace with whether the mutex is held at the point
the event happens: an acquire makes it held from that event on, a release
makes it free after that event. -/
def heldFlags (held : Bool) : List QEvent → List (QEvent × Bool)
  | [] => []
  | e :: rest =>
    match e with
    | QEvent.lockAcquire => (e, true) :: heldFlags true rest
    | QEvent.lockRelease => (e, held) :: heldFlags false rest
    | _ => (e, held) :: heldFlags held rest

/-- The spec's description of `update_queue` lock scope: every resolver
call happens while the mutex is NOT held (resolution outside the lock). -/
def resolutionOutsideLock (new_songs_list : List Song) : Prop :=
  ∀ p ∈ heldFlags false (update_queue_trace new_songs_list),
    p.1.isResolveCall = true → p.2 = false

/-- The dict built by `SpotifyClient.get_playback_status`
(`spotify_client.py` lines 141-168). Times are in milliseconds, Python
integers. The status query result as seen by callers is
`Option PlaybackStatus`: `none` models the `None` returned when the
underlying query raises. -/
structure PlaybackStatus where
  is_playing : Bool
  progress_ms : Int
  duration_ms : Int
deriving DecidableEq

/-- `SpotifyClient.calculate_time_until_end` (`spotify_client.py` lines
170-191): `-1` when the status is `None`, not playing, or the duration is
non-positive; otherwise `(duration_ms - progress_ms) / 1000.0` clamped
below at 0. Seconds are modelled as exact rationals; all comparisons the
code performs on these values are exact at this scale. -/
def calculate_time_until_end (status : Option PlaybackStatus) : ℚ :=
  match status with
  | none => -1
  | some s =>
    if !s.is_playing then -1
    else if s.duration_ms ≤ 0 then -1
    else
      let time_remaining_ms := s.duration_ms - s.progress_ms
      if time_remaining_ms < 0 then 0
      else (time_remaining_ms : ℚ) / 1000

/-- `SpotifyClient.should_inject_next` (`spotify_client.py` lines 193-210):
false on the `-1` sentinel, otherwise true iff the remaining time is at or
below `INJECTION_THRESHOLD`. -/
def should_inject_next (status : Option PlaybackStatus) : Bool :=
  let time_until_end := calculate_time_until_end status
  if time_until_end < 0 then false
  else decide (time_until_end ≤ JITConfig.INJECTION_THRESHOLD)

/-- The eligibility conjunction of the injection loop (`queue_sync.py`
lines 199-202): `should_inject_next()` and the per-track latch clear. -/
def injectionEligible (status : Option PlaybackStatus)
    (already_injected_for_current : Bool) : Bool :=
  should_inject_next status && !already_injected_for_current

/-- Mutable fields of `JITQueueSync` (`queue_sync.py` lines 34-45). -/
structure JITState where
  queue_manager : Option QueueManager
  running : Bool
  last_injected_uri : Option String
  last_played_uri : Option String
  already_injected_for_current : Bool
deriving DecidableEq

/-- The fields as set by `JITQueueSync.__init__`. -/
def JITState.mkInitial : JITState := ⟨none, false, none, none, false⟩

/-- `JITQueueSync.start_dj_session` (`queue_sync.py` lines 47-85).
`resolver` is `SpotifyClient.search_track`; `start_playback` is the
external `SpotifyClient.start_playback` call, returning whether it
succeeded. Returns the boolean result together with the updated state:
an empty input fails immediately; otherwise a `QueueManager` is built
(resolving all songs), an empty resolved queue fails; the first track uri
is fetched with `get_next_track_uri` (a falsy uri fails); `start_playback`
is issued for it and, on success, it is recorded as `last_injected_uri`. -/
def start_dj_session (resolver : String → String → Option String)
    (start_playback : String → Bool) (st : JITState)
    (initial_queue : List Song) : Bool × JITState :=
  if initial_queue.isEmpty then (false, st)
  else
    let qm := QueueManager.mkInitial resolver initial_queue
    let st1 := { st with queue_manager := some qm }
    if qm.is_empty then (false, st1)
    else
      match qm.get_next_track_uri with
      | none => (false, st1)
      | some first_uri =>
        if first_uri = "" then (false, st1)
        else if start_playback first_uri then
          (true, { st1 with last_injected_uri := some first_uri })
        else (false, st1)

/-- The loop-carried state of one `run_injection_loop` iteration once a
session is running (`queue_sync.py`): the queue manager plus the three
injection-tracking fields. -/
structure LoopState where
  qm : QueueManager
  last_injected_uri : Option String
  last_played_uri : Option String
  already_injected_for_current : Bool
deriving DecidableEq

/-- The oracle-dependent inputs of one loop iteration: the playing-track
uri read from `current_playback` (in the code a falsy uri — `None` item or
empty string — is modelled by `none` or `some ""`), the value of
`should_inject_next()` at the decision point, and the outcome of the k-th
`inject_next_song` call of this iteration's retry loop. -/
structure CycleInput where
  current_uri : Option String
  should_inject : Bool
  outcome : Nat → Bool

/-- Track-change edge detection (`queue_sync.py` lines 130-144): if the
playing uri is truthy and differs from `last_played_uri`, record it and
clear the already-injected latch; otherwise leave the state alone. -/
def detectSongChange (current_uri : Option String) (st : LoopState) :
    LoopState :=
  match current_uri with
  | none => st
  | some u =>
    if u = "" then st
    else if some u = st.last_played_uri then st
    else { st with last_played_uri := some u,
                   already_injected_for_current := false }

/-- The `for attempt in range(RETRY_ATTEMPTS)` retry loop (`queue_sync.py`
lines 213-235), abstracted over the outcome of each `inject_next_song`
call: tries up to `remaining` more attempts starting at call index `k`,
returning whether an attempt succeeded and how many calls were made. -/
def retryInjection (outcome : Nat → Bool) : Nat → Nat → Bool × Nat
  | 0, _ => (false, 0)
  | n + 1, k =>
    if outcome k then (true, 1)
    else
      let r := retryInjection outcome n (k + 1)
      (r.1, r.2 + 1)

/-- The whole retry loop, starting at the first attempt. -/
def runRetryLoop (outcome : Nat → Bool) (attempts : Nat) : Bool × Nat :=
  retryInjection outcome attempts 0

/-- Result of one loop iteration: the new state, whether the loop `break`s
(queue exhausted), and whether a successful injection happened. -/
structure CycleOutcome where
  state : LoopState
  halted : Bool
  injected : Bool
deriving DecidableEq

/-- The injection decision and retry path of one loop iteration
(`queue_sync.py` lines 198-246): if `should_inject_next()` holds and the
latch is clear, an exhausted queue breaks the loop; otherwise the head uri
is peeked with `get_next_track_uri` and the retry loop runs. On success the
item is popped with `get_next_song`, `last_injected_uri` is updated and the
latch set; on failure (all retries exhausted) everything is left untouched
and the loop continues. -/
def injectionPhase (outcome : Nat → Bool) (should_inject : Bool)
    (st : LoopState) : CycleOutcome :=
  if should_inject && !st.already_injected_for_current then
    if st.qm.is_empty then ⟨st, true, false⟩
    else
      match st.qm.get_next_track_uri with
      | none => ⟨st, true, false⟩
      | some next_uri =>
        if next_uri = "" then ⟨st, true, false⟩
        else if (runRetryLoop outcome JITConfig.RETRY_ATTEMPTS).1 then
          ⟨{ st with qm := (st.qm.get_next_song).2,
                     last_injected_uri := some next_uri,
                     already_injected_for_current := true },
            false, true⟩
        else ⟨st, false, false⟩
  else ⟨st, false, false⟩

/-- One full iteration of the running loop, in source order: track-change
edge detection first (`queue_sync.py` lines 130-144), then — after the
poll-interval sleep and debug logging, which carry no state — the
injection decision and retry path (lines 198-246). -/
def runCycle (input : CycleInput) (st : LoopState) : CycleOutcome :=
  injectionPhase input.outcome input.should_inject
    (detectSongChange input.current_uri st)

/-- Runs successive loop iterations on a list of per-cycle inputs, stopping
when an iteration breaks; returns the final state and the total number of
successful injections. -/
def runCycles (inputs : List CycleInput) (st : LoopState) :
    LoopState × Nat :=
  match inputs with
  | [] => (st, 0)
  | i :: rest =>
    if (runCycle i st).halted then
      ((runCycle i st).state, if (runCycle i st).injected then 1 else 0)
    else
      ((runCycles rest (runCycle i st).state).1,
        (if (runCycle i st).injected then 1 else 0)
          + (runCycles rest (runCycle i st).state).2)

/-- Operations a caller can interleave on one `QueueManager`: the scheduler
pop (`get_next_song`) and the controller replace (`update_queue`). -/
inductive QMOp where
  | pop
  | update (songs : List Song)

/-- Applies one operation to the queue state. -/
def applyOp (resolver : String → String → Option String)
    (qm : QueueManager) : QMOp → QueueManager
  | QMOp.pop => (qm.get_next_song).2
  | QMOp.update songs => qm.update_queue resolver songs

/-- Applies a sequence of operations in order. -/
def applyOps (resolver : String → String → Option String)
    (qm : QueueManager) (ops : List QMOp) : QueueManager :=
  ops.foldl (applyOp resolver) qm

/-- A cycle input that does not constitute a track-change edge for state
`st`: the playing uri is falsy (`None` item or empty string) or equal to
the last observed playing uri. -/
def noTrackChange (st : LoopState) (i : CycleInput) : Prop :=
  i.current_uri = none ∨ i.current_uri = some "" ∨
    i.current_uri = st.last_played_uri

/-- A concrete resolver mapping the titles A, B, C to distinct uris,
used to evaluate the start-session scenario. -/
def demoResolver : String → String → Option String := fun t _ =>
  if t = "A" then some "uriA"
  else if t = "B" then some "uriB"
  else if t = "C" then some "uriC"
  else none

/-- The three-song input list of the start-session scenario. -/
def demoSongs : List Song :=
  [⟨some "A", some "artistA"⟩, ⟨some "B", some "artistB"⟩,
   ⟨some "C", some "artistC"⟩]

/-- C3: for every sequence of replace (`update_queue`) calls interleaved
with any number of pops, `queue_length` immediately after a replace equals
the number of input items of that replace that resolved successfully,
independent of how many pops occurred before it. -/
theorem C3_remaining_after_replace
    (resolver : String → String → Option String) (qm : QueueManager)
    (ops : List QMOp) (songs : List Song) :
    (applyOps resolver qm (ops ++ [QMOp.update songs])).queue_length
      = ((resolveSongs resolver songs).length : Int) := by
  simp [applyOps, List.foldl_append, applyOp, QueueManager.update_queue,
    QueueManager.queue_length]

/-- C7: `start_dj_session` returns false on an empty input list, and
returns false whenever resolution of the input yields zero playable
items. -/
theorem C7_start_session_failure_cases :
    (∀ (resolver : String → String → Option String)
       (sp : String → Bool) (st : JITState),
      (start_dj_session resolver sp st []).1 = false) ∧
    (∀ (resolver : String → String → Option String)
       (sp : String → Bool) (st : JITState) (items : List Song),
      resolveSongs resolver items = [] →
      (start_dj_session resolver sp st items).1 = false) := by
  constructor
  · intro resolver sp st
    simp [start_dj_session]
  · intro resolver sp st items h
    cases items with
    | nil => simp [start_dj_session]
    | cons s rest =>
      simp [start_dj_session, QueueManager.mkInitial, QueueManager.is_empty,
        QueueManager.get_next_track_uri, h]

/-- Witness for C7 at concrete inputs: the empty list, and a list whose
only item fails resolution. -/
theorem C7_start_session_failure_cases_witness :
    (start_dj_session (fun _ _ => none) (fun _ => true)
      JITState.mkInitial []).1 = false ∧
    (resolveSongs (fun _ _ => none) [⟨some "X", some "Y"⟩] = [] ∧
     (start_dj_session (fun _ _ => none) (fun _ => true)
       JITState.mkInitial [⟨some "X", some "Y"⟩]).1 = false) :=
  ⟨C7_start_session_failure_cases.1 _ _ _,
   by decide,
   C7_start_session_failure_cases.2 _ _ _ _ (by decide)⟩

/-- C9: the shadow-queue operations preserve `0 ≤ cursor ≤ length` (the
lower bound holds by construction since the cursor is a natural number);
`get_next_song` never moves the cursor down, and `update_queue` and the
constructor reset it to exactly 0 (with the invariant re-established). -/
theorem C9_cursor_invariant (qm : QueueManager)
    (h : qm.current_index ≤ qm.songs_with_uris.length) :
    ((qm.get_next_song).2.current_index
        ≤ (qm.get_next_song).2.songs_with_uris.length
      ∧ qm.current_index ≤ (qm.get_next_song).2.current_index)
    ∧ (∀ (resolver : String → String → Option String) (songs : List Song),
        (qm.update_queue resolver songs).current_index = 0
        ∧ (qm.update_queue resolver songs).current_index
            ≤ (qm.update_queue resolver songs).songs_with_uris.length)
    ∧ (∀ (resolver : String → String → Option String) (songs : List Song),
        (QueueManager.mkInitial resolver songs).current_index = 0
        ∧ (QueueManager.mkInitial resolver songs).current_index
            ≤ (QueueManager.mkInitial resolver songs).songs_with_uris.length) := by
  refine ⟨?_, ?_, ?_⟩
  · unfold QueueManager.get_next_song
    split
    · exact ⟨h, le_refl _⟩
    · rename_i hlt
      constructor
      · simpa using Nat.succ_le_of_lt (Nat.lt_of_not_le hlt)
      · simp
  · intro resolver songs
    exact ⟨rfl, by simp [QueueManager.update_queue]⟩
  · intro resolver songs
    exact ⟨rfl, by simp [QueueManager.mkInitial]⟩

/-- Witness for C9 at a concrete one-element queue with cursor 0. -/
theorem C9_cursor_invariant_witness :
    ((⟨[⟨"t", "a", "u"⟩], 0⟩ : QueueManager).current_index
        ≤ (⟨[⟨"t", "a", "u"⟩], 0⟩ : QueueManager).songs_with_uris.length)
    ∧ (((⟨[⟨"t", "a", "u"⟩], 0⟩ : QueueManager).get_next_song).2.current_index
        ≤ ((⟨[⟨"t", "a", "u"⟩], 0⟩ : QueueManager).get_next_song).2.songs_with_uris.length
      ∧ (⟨[⟨"t", "a", "u"⟩], 0⟩ : QueueManager).current_index
        ≤ ((⟨[⟨"t", "a", "u"⟩], 0⟩ : QueueManager).get_next_song).2.current_index) :=
  ⟨by decide, (C9_cursor_invariant ⟨[⟨"t", "a", "u"⟩], 0⟩ (by decide)).1⟩

/-- C10: whenever the status query fails (`None`), playback is inactive,
or the reported duration is non-positive, `calculate_time_until_end`
returns the `-1` sentinel and `should_inject_next` returns false. -/
theorem C10_no_injection_without_playback :
    (calculate_time_until_end none = -1 ∧ should_inject_next none = false) ∧
    (∀ s : PlaybackStatus, s.is_playing = false →
      calculate_time_until_end (some s) = -1
      ∧ should_inject_next (some s) = false) ∧
    (∀ s : PlaybackStatus, s.duration_ms ≤ 0 →
      calculate_time_until_end (some s) = -1
      ∧ should_inject_next (some s) = false) := by
  refine ⟨⟨rfl, by norm_num [should_inject_next, calculate_time_until_end]⟩, ?_, ?_⟩
  · intro s hs
    have hcalc : calculate_time_until_end (some s) = -1 := by
      simp [calculate_time_until_end, hs]
    refine ⟨hcalc, ?_⟩
    simp [should_inject_next, hcalc]
  · intro s hs
    have hcalc : calculate_time_until_end (some s) = -1 := by
      unfold calculate_time_until_end
      rcases hp : s.is_playing with _ | _
      · simp [hp]
      · simp [hp, hs]
    refine ⟨hcalc, ?_⟩
    simp [should_inject_next, hcalc]

/-- Witness for C10 at concrete statuses: a paused track and a playing
track with zero duration. -/
theorem C10_no_injection_without_playback_witness :
    (calculate_time_until_end (some ⟨false, 1000, 2000⟩) = -1
      ∧ should_inject_next (some ⟨false, 1000, 2000⟩) = false)
    ∧ (calculate_time_until_end (some ⟨true, 1000, 0⟩) = -1
      ∧ should_inject_next (some ⟨true, 1000, 0⟩) = false) :=
  ⟨C10_no_injection_without_playback.2.1 ⟨false, 1000, 2000⟩ rfl,
   C10_no_injection_without_playback.2.2 ⟨true, 1000, 0⟩ (by norm_num)⟩

/-- C5: while a track is playing with positive duration, the remaining
time is computed as max(0, duration - progress) (in seconds), eligibility
holds exactly when the remaining time is at or below the injection
threshold and the latch is clear, and with threshold 15 s and duration
200 s (200000 ms) eligibility is false for every progress below 185000 ms
and true for every progress at or above 185000 ms with the latch clear. -/
theorem C5_eligibility_threshold :
    (∀ s : PlaybackStatus, s.is_playing = true → 0 < s.duration_ms →
      calculate_time_until_end (some s)
        = max 0 (((s.duration_ms - s.progress_ms : Int) : ℚ) / 1000)) ∧
    (∀ (s : PlaybackStatus) (latch : Bool), s.is_playing = true →
      0 < s.duration_ms →
      (injectionEligible (some s) latch = true ↔
        (calculate_time_until_end (some s) ≤ JITConfig.INJECTION_THRESHOLD
          ∧ latch = false))) ∧
    (∀ progress_ms : Int, progress_ms < 185000 →
      injectionEligible (some ⟨true, progress_ms, 200000⟩) false = false) ∧
    (∀ progress_ms : Int, 185000 ≤ progress_ms →
      injectionEligible (some ⟨true, progress_ms, 200000⟩) false = true) := by
  have hcalc : ∀ s : PlaybackStatus, s.is_playing = true → 0 < s.duration_ms →
      calculate_time_until_end (some s)
        = max 0 (((s.duration_ms - s.progress_ms : Int) : ℚ) / 1000) := by
    intro s hp hd
    have hd' : ¬ s.duration_ms ≤ 0 := not_le.mpr hd
    unfold calculate_time_until_end
    simp only [hp, Bool.not_true, Bool.false_eq_true, if_false, hd']
    split
    · rename_i hneg
      have : ((s.duration_ms - s.progress_ms : Int) : ℚ) / 1000 < 0 := by
        apply div_neg_of_neg_of_pos _ (by norm_num)
        exact_mod_cast hneg
      exact (max_eq_left this.le).symm
    · rename_i hpos
      have : (0 : ℚ) ≤ ((s.duration_ms - s.progress_ms : Int) : ℚ) / 1000 := by
        apply div_nonneg _ (by norm_num)
        exact_mod_cast not_lt.mp hpos
      exact (max_eq_right this).symm
  have hnonneg : ∀ s : PlaybackStatus, s.is_playing = true →
      0 < s.duration_ms → 0 ≤ calculate_time_until_end (some s) := by
    intro s hp hd
    rw [hcalc s hp hd]
    exact le_max_left _ _
  have hiff : ∀ (s : PlaybackStatus) (latch : Bool), s.is_playing = true →
      0 < s.duration_ms →
      (injectionEligible (some s) latch = true ↔
        (calculate_time_until_end (some s) ≤ JITConfig.INJECTION_THRESHOLD
          ∧ latch = false)) := by
    intro s latch hp hd
    have h0 := hnonneg s hp hd
    unfold injectionEligible should_inject_next
    simp only [not_lt.mpr h0, if_neg (not_lt.mpr h0)]
    cases latch <;> simp [decide_eq_true_eq]
  refine ⟨hcalc, hiff, ?_, ?_⟩
  · intro p hlt
    have h15 : JITConfig.INJECTION_THRESHOLD
        < calculate_time_until_end (some ⟨true, p, 200000⟩) := by
      rw [hcalc ⟨true, p, 200000⟩ rfl (by norm_num)]
      have hlt' : (p : ℚ) < 185000 := by exact_mod_cast hlt
      have hx : (15 : ℚ) < ((200000 - p : Int) : ℚ) / 1000 := by
        rw [lt_div_iff₀ (by norm_num : (0 : ℚ) < 1000)]
        push_cast
        linarith
      calc JITConfig.INJECTION_THRESHOLD = (15 : ℚ) := rfl
        _ < ((200000 - p : Int) : ℚ) / 1000 := hx
        _ ≤ max 0 (((200000 - p : Int) : ℚ) / 1000) := le_max_right _ _
    have := hiff ⟨true, p, 200000⟩ false rfl (by norm_num)
    rcases h : injectionEligible (some ⟨true, p, 200000⟩) false with _ | _
    · rfl
    · exact absurd ((this.mp h).1) (not_le.mpr h15)
  · intro p hge
    have hle : calculate_time_until_end (some ⟨true, p, 200000⟩)
        ≤ JITConfig.INJECTION_THRESHOLD := by
      rw [hcalc ⟨true, p, 200000⟩ rfl (by norm_num)]
      have hge' : (185000 : ℚ) ≤ (p : ℚ) := by exact_mod_cast hge
      have hx : ((200000 - p : Int) : ℚ) / 1000 ≤ 15 := by
        rw [div_le_iff₀ (by norm_num : (0 : ℚ) < 1000)]
        push_cast
        linarith
      exact max_le (by norm_num [JITConfig.INJECTION_THRESHOLD]) hx
    exact (hiff ⟨true, p, 200000⟩ false rfl (by norm_num)).mpr ⟨hle, rfl⟩

/-- Witness for C5: remaining time at 100 s progress, the eligibility
equivalence, ineligibility at progress 0 and eligibility at 185 s, all on
a 200 s track. -/
theorem C5_eligibility_threshold_witness :
    (calculate_time_until_end (some ⟨true, 100000, 200000⟩)
      = max 0 (((200000 - 100000 : Int) : ℚ) / 1000))
    ∧ (injectionEligible (some ⟨true, 100000, 200000⟩) false = true ↔
        (calculate_time_until_end (some ⟨true, 100000, 200000⟩)
            ≤ JITConfig.INJECTION_THRESHOLD
          ∧ false = false))
    ∧ injectionEligible (some ⟨true, 0, 200000⟩) false = false
    ∧ injectionEligible (some ⟨true, 185000, 200000⟩) false = true :=
  ⟨C5_eligibility_threshold.1 ⟨true, 100000, 200000⟩ rfl (by norm_num),
   C5_eligibility_threshold.2.1 ⟨true, 100000, 200000⟩ false rfl (by norm_num),
   C5_eligibility_threshold.2.2.1 0 (by norm_num),
   C5_eligibility_threshold.2.2.2 185000 (by norm_num)⟩

/-- If the whole retry loop reports failure, every attempt was made and
each one failed. -/
theorem retryInjection_false (outcome : Nat → Bool) :
    ∀ (n k : Nat), (retryInjection outcome n k).1 = false →
      (retryInjection outcome n k).2 = n
        ∧ ∀ i, i < n → outcome (k + i) = false := by
  intro n
  induction n with
  | zero =>
    intro k _
    exact ⟨rfl, fun i hi => absurd hi (Nat.not_lt_zero i)⟩
  | succ m ih =>
    intro k h
    unfold retryInjection at h ⊢
    by_cases ho : outcome k
    · simp [ho] at h
    · simp only [Bool.not_eq_true] at ho
      simp only [ho, Bool.false_eq_true, if_false] at h ⊢
      obtain ⟨hcount, hall⟩ := ih (k + 1) h
      refine ⟨by simp [hcount], ?_⟩
      intro i hi
      cases i with
      | zero => simpa using ho
      | succ j =>
        have hj : k + (j + 1) = (k + 1) + j := by omega
        rw [hj]
        exact hall j (by omega)

/-- C6: with the configured 3 retry attempts, an append that fails twice
then succeeds makes the injection report success after exactly 3 attempts;
and the retry loop reports failure only after all configured attempts have
been made (and failed). -/
theorem C6_retry_loop :
    (∀ outcome : Nat → Bool, outcome 0 = false → outcome 1 = false →
      outcome 2 = true →
      runRetryLoop outcome JITConfig.RETRY_ATTEMPTS = (true, 3)) ∧
    (∀ outcome : Nat → Bool,
      (runRetryLoop outcome JITConfig.RETRY_ATTEMPTS).1 = false →
      (runRetryLoop outcome JITConfig.RETRY_ATTEMPTS).2
          = JITConfig.RETRY_ATTEMPTS
        ∧ ∀ i, i < JITConfig.RETRY_ATTEMPTS → outcome i = false) := by
  constructor
  · intro f h0 h1 h2
    simp [runRetryLoop, JITConfig.RETRY_ATTEMPTS, retryInjection, h0, h1, h2]
  · intro f h
    obtain ⟨hcount, hall⟩ := retryInjection_false f JITConfig.RETRY_ATTEMPTS 0 h
    exact ⟨hcount, fun i hi => by simpa using hall i hi⟩

/-- Witness for C6: the fail-fail-succeed outcome succeeds in exactly 3
calls, and the always-failing outcome exhausts all attempts. -/
theorem C6_retry_loop_witness :
    runRetryLoop (fun k => decide (k = 2)) JITConfig.RETRY_ATTEMPTS
        = (true, 3)
    ∧ ((runRetryLoop (fun _ => false) JITConfig.RETRY_ATTEMPTS).2
          = JITConfig.RETRY_ATTEMPTS
        ∧ ∀ i, i < JITConfig.RETRY_ATTEMPTS →
            (fun _ => false : Nat → Bool) i = false) :=
  ⟨C6_retry_loop.1 _ rfl rfl rfl, C6_retry_loop.2 _ (by decide)⟩

/-- C2 counterexample: on a one-song input, the `search_track` resolver
call of `update_queue` happens while the shadow-queue mutex is held — the
`with self._lock:` block encloses the whole resolution loop — refuting the
claim that resolution happens outside the lock. -/
theorem C2_counterexample_resolution_under_lock :
    ¬ resolutionOutsideLock [⟨some "Blinding Lights", some "The Weeknd"⟩] := by
  unfold resolutionOutsideLock
  decide

/-- C2 amended: in `update_queue` every resolver call happens while the
shadow-queue mutex is held; the lock covers the resolution loop together
with the state reset, not just the swap. -/
theorem C2_amended_resolution_inside_lock (songs : List Song) :
    ∀ p ∈ heldFlags false (update_queue_trace songs),
      p.1.isResolveCall = true → p.2 = true := by
  have aux : ∀ (evs : List Song),
      ∀ p ∈ heldFlags true (resolveCallEvents evs ++ [QEvent.lockRelease]),
        p.2 = true := by
    intro evs
    induction evs with
    | nil =>
      intro p hp
      simp only [resolveCallEvents, List.nil_append, heldFlags,
        List.mem_singleton] at hp
      rw [hp]
    | cons s rest ih =>
      intro p hp
      rcases s with ⟨t, a⟩
      cases t with
      | none =>
        simp only [resolveCallEvents] at hp
        exact ih p hp
      | some tv =>
        cases a with
        | none =>
          simp only [resolveCallEvents] at hp
          exact ih p hp
        | some av =>
          by_cases hskip : tv = "" ∨ av = ""
          · simp only [resolveCallEvents, if_pos hskip] at hp
            exact ih p hp
          · simp only [resolveCallEvents, if_neg hskip, List.cons_append,
              heldFlags, List.mem_cons] at hp
            rcases hp with hp | hp
            · rw [hp]
            · exact ih p hp
  intro p hp _
  simp only [update_queue_trace, heldFlags, List.mem_cons] at hp
  rcases hp with hp | hp | hp
  · rw [hp]
  · rw [hp]
  · exact aux songs p hp

/-- Witness for C2 amended: the resolver call of a concrete one-song
replace is flagged as happening with the mutex held. -/
theorem C2_amended_resolution_inside_lock_witness :
    (QEvent.resolveCall "Blinding Lights" "The Weeknd", true)
        ∈ heldFlags false
          (update_queue_trace [⟨some "Blinding Lights", some "The Weeknd"⟩])
    ∧ (QEvent.resolveCall "Blinding Lights" "The Weeknd", true).2 = true :=
  ⟨by decide,
   C2_amended_resolution_inside_lock
     [⟨some "Blinding Lights", some "The Weeknd"⟩] _ (by decide) (by decide)⟩

/-- C4: when the injection attempt for the head item fails on every retry,
the loop iteration leaves the shadow queue, the latch and the
last-injected uri exactly as they were, does not stop the loop, and
records no injection — so the same item is retried on the next eligible
cycle. -/
theorem C4_failed_injection_leaves_state (outcome : Nat → Bool)
    (st : LoopState) (u : String)
    (hlatch : st.already_injected_for_current = false)
    (hu : st.qm.get_next_track_uri = some u) (hne : u ≠ "")
    (hfail : ∀ k, outcome k = false) :
    injectionPhase outcome true st = ⟨st, false, false⟩ := by
  have hempty : st.qm.is_empty = false := by
    unfold QueueManager.get_next_track_uri at hu
    unfold QueueManager.is_empty
    split at hu
    · exact absurd hu (by simp)
    · rename_i hlt
      simp [hlt]
  have hrfail : (runRetryLoop outcome JITConfig.RETRY_ATTEMPTS).1 = false := by
    simp [runRetryLoop, JITConfig.RETRY_ATTEMPTS, retryInjection, hfail]
  unfold injectionPhase
  simp [hlatch, hempty, hu, hne, hrfail]

/-- Witness for C4 at a concrete one-element queue and a permanently
failing executor. -/
theorem C4_failed_injection_leaves_state_witness :
    injectionPhase (fun _ => false) true
        ⟨⟨[⟨"t", "a", "u"⟩], 0⟩, none, none, false⟩
      = ⟨⟨⟨[⟨"t", "a", "u"⟩], 0⟩, none, none, false⟩, false, false⟩ :=
  C4_failed_injection_leaves_state (fun _ => false)
    ⟨⟨[⟨"t", "a", "u"⟩], 0⟩, none, none, false⟩ "u" rfl (by decide)
    (by decide) (fun _ => rfl)

/-- The injection decision has exactly three observable shapes: a no-op
continue, a no-op break, or a successful injection that pops the head,
records its uri and sets the latch. -/
theorem injectionPhase_cases (outcome : Nat → Bool) (si : Bool)
    (st : LoopState) :
    injectionPhase outcome si st = ⟨st, false, false⟩
    ∨ injectionPhase outcome si st = ⟨st, true, false⟩
    ∨ ∃ u, st.qm.get_next_track_uri = some u ∧
        injectionPhase outcome si st
          = ⟨{ st with qm := (st.qm.get_next_song).2,
                       last_injected_uri := some u,
                       already_injected_for_current := true },
              false, true⟩ := by
  unfold injectionPhase
  split
  · split
    · right; left; rfl
    · split
      · right; left; rfl
      · rename_i u hu
        split
        · right; left; rfl
        · split
          · right; right; exact ⟨u, hu, rfl⟩
          · left; rfl
  · left; rfl

/-- The injection decision never changes the last-observed playing uri. -/
theorem injectionPhase_last_played (outcome : Nat → Bool)
    (si : Bool) (st : LoopState) :
    (injectionPhase outcome si st).state.last_played_uri
      = st.last_played_uri := by
  rcases injectionPhase_cases outcome si st with h | h | ⟨u, _, h⟩ <;>
    rw [h]

/-- If the injection decision records no successful injection, the loop
state is unchanged. -/
theorem injectionPhase_state_of_not_injected (outcome : Nat → Bool)
    (si : Bool) (st : LoopState)
    (h : (injectionPhase outcome si st).injected = false) :
    (injectionPhase outcome si st).state = st := by
  rcases injectionPhase_cases outcome si st with hc | hc | ⟨u, _, hc⟩
  · rw [hc]
  · rw [hc]
  · rw [hc] at h
    simp at h

/-- A successful injection always leaves the already-injected latch set
and continues the loop. -/
theorem injectionPhase_latch_of_injected (outcome : Nat → Bool)
    (si : Bool) (st : LoopState)
    (h : (injectionPhase outcome si st).injected = true) :
    (injectionPhase outcome si st).state.already_injected_for_current
        = true
      ∧ (injectionPhase outcome si st).halted = false := by
  rcases injectionPhase_cases outcome si st with hc | hc | ⟨u, _, hc⟩
  · rw [hc] at h
    simp at h
  · rw [hc] at h
    simp at h
  · rw [hc]
    exact ⟨rfl, rfl⟩

/-- With the latch set, an iteration's injection decision is a no-op: the
eligibility conjunction is false, so the state is untouched, the loop
neither stops nor injects. -/
theorem injectionPhase_of_latched (outcome : Nat → Bool) (si : Bool)
    (st : LoopState) (h : st.already_injected_for_current = true) :
    injectionPhase outcome si st = ⟨st, false, false⟩ := by
  unfold injectionPhase
  simp [h]

/-- A no-edge input leaves the edge-detection step inert. -/
theorem detectSongChange_of_noTrackChange (st : LoopState) (i : CycleInput)
    (h : noTrackChange st i) : detectSongChange i.current_uri st = st := by
  rcases h with h | h | h
  · rw [h]
    simp [detectSongChange]
  · rw [h]
    simp [detectSongChange]
  · cases hl : st.last_played_uri with
    | none =>
      rw [h, hl]
      simp [detectSongChange]
    | some u =>
      rw [h, hl]
      by_cases hu : u = ""
      · simp [detectSongChange, hu]
      · simp [detectSongChange, hu, hl]

/-- Once the latch is set, a run of no-edge cycles never injects and never
changes the state. -/
theorem runCycles_of_latched (inputs : List CycleInput) (st : LoopState)
    (hl : st.already_injected_for_current = true)
    (hno : ∀ i ∈ inputs, noTrackChange st i) :
    runCycles inputs st = (st, 0) := by
  induction inputs with
  | nil => rfl
  | cons i rest ih =>
    have hcyc : runCycle i st = ⟨st, false, false⟩ := by
      unfold runCycle
      rw [detectSongChange_of_noTrackChange st i (hno i (by simp))]
      exact injectionPhase_of_latched _ _ _ hl
    unfold runCycles
    rw [hcyc]
    simp [ih (fun j hj => hno j (by simp [hj]))]

/-- Across any run of no-edge cycles there is at most one successful
injection: the first success sets the latch, which only a track-change
edge clears. -/
theorem runCycles_atMostOne (inputs : List CycleInput) (st : LoopState)
    (hno : ∀ i ∈ inputs, noTrackChange st i) :
    (runCycles inputs st).2 ≤ 1 := by
  induction inputs generalizing st with
  | nil => simp [runCycles]
  | cons i rest ih =>
    have hdet := detectSongChange_of_noTrackChange st i (hno i (by simp))
    have hcyc : runCycle i st = injectionPhase i.outcome i.should_inject st := by
      unfold runCycle
      rw [hdet]
    rcases hinj : (runCycle i st).injected with _ | _
    · have hstate : (runCycle i st).state = st := by
        rw [hcyc] at hinj ⊢
        exact injectionPhase_state_of_not_injected _ _ _ hinj
      cases hh : (runCycle i st).halted
      · unfold runCycles
        rw [hh, hinj, hstate]
        simpa using ih st (fun j hj => hno j (by simp [hj]))
      · unfold runCycles
        rw [hh, hinj]
        simp
    · have hlatch := by
        rw [hcyc] at hinj
        exact injectionPhase_latch_of_injected i.outcome i.should_inject st hinj
      have hh : (runCycle i st).halted = false := by
        rw [hcyc]
        exact hlatch.2
      have hset : (runCycle i st).state.already_injected_for_current = true := by
        rw [hcyc]
        exact hlatch.1
      have hlast : (runCycle i st).state.last_played_uri = st.last_played_uri := by
        rw [hcyc]
        exact injectionPhase_last_played _ _ _
      have hrest : runCycles rest (runCycle i st).state
          = ((runCycle i st).state, 0) := by
        apply runCycles_of_latched _ _ hset
        intro j hj
        have hj' := hno j (by simp [hj])
        unfold noTrackChange at hj' ⊢
        rw [hlast]
        exact hj'
      unfold runCycles
      rw [hh, hinj, hrest]
      simp

/-- C8: the track-change edge detector clears the latch and updates the
last-observed playing uri exactly when a truthy playing uri differs from
the last observed one, is inert otherwise, and between two edges at most
one successful injection can occur. -/
theorem C8_latch_per_track :
    (∀ (st : LoopState) (u : String), u ≠ "" → some u ≠ st.last_played_uri →
      detectSongChange (some u) st
        = { st with last_played_uri := some u,
                    already_injected_for_current := false }) ∧
    (∀ st : LoopState, detectSongChange none st = st) ∧
    (∀ (st : LoopState) (u : String), some u = st.last_played_uri →
      detectSongChange (some u) st = st) ∧
    (∀ (inputs : List CycleInput) (st : LoopState),
      (∀ i ∈ inputs, noTrackChange st i) → (runCycles inputs st).2 ≤ 1) := by
  refine ⟨?_, fun _ => rfl, ?_, runCycles_atMostOne⟩
  · intro st u hne hdiff
    simp [detectSongChange, hne, hdiff]
  · intro st u heq
    by_cases hu : u = ""
    · simp [detectSongChange, hu]
    · simp [detectSongChange, hu, heq]

/-- Witness for C8: a concrete edge clears the latch, and a two-cycle
no-edge run on an eligible two-song queue injects exactly once. -/
theorem C8_latch_per_track_witness :
    (detectSongChange (some "x")
        ⟨⟨[⟨"t", "a", "u"⟩], 0⟩, none, none, true⟩
      = ⟨⟨[⟨"t", "a", "u"⟩], 0⟩, none, some "x", false⟩)
    ∧ ((runCycles
          [⟨none, true, fun _ => true⟩, ⟨none, true, fun _ => true⟩]
          ⟨⟨[⟨"t", "a", "u"⟩, ⟨"t2", "a2", "u2"⟩], 0⟩,
            none, none, false⟩).2 ≤ 1) :=
  ⟨C8_latch_per_track.1 ⟨⟨[⟨"t", "a", "u"⟩], 0⟩, none, none, true⟩ "x"
      (by decide) (by decide),
   C8_latch_per_track.2.2.2
      [⟨none, true, fun _ => true⟩, ⟨none, true, fun _ => true⟩]
      ⟨⟨[⟨"t", "a", "u"⟩, ⟨"t2", "a2", "u2"⟩], 0⟩, none, none, false⟩
      (by
        intro i hi
        simp only [List.mem_cons, List.not_mem_nil, or_false] at hi
        rcases hi with hi | hi <;> (subst hi; left; rfl))⟩

/-- C1 at its concrete input: `start_dj_session` on the fully resolvable
list [A, B, C] succeeds, records A's uri as last injected, but does NOT
consume A — the shadow queue still holds 3 items with A at the head — so
the next eligible cycle injects A's uri again (not B's): afterwards the
remaining count is 2 and the last-injected uri is still A's. This
evaluates the code's actual behaviour at the failing input of the
claim. -/
theorem C1_code_behavior_at_failing_input :
    (start_dj_session demoResolver (fun _ => true)
        JITState.mkInitial demoSongs).1 = true
    ∧ (start_dj_session demoResolver (fun _ => true)
        JITState.mkInitial demoSongs).2.last_injected_uri = some "uriA"
    ∧ (start_dj_session demoResolver (fun _ => true)
        JITState.mkInitial demoSongs).2.queue_manager
        = some (QueueManager.mkInitial demoResolver demoSongs)
    ∧ (QueueManager.mkInitial demoResolver demoSongs).queue_length = 3
    ∧ (QueueManager.mkInitial demoResolver demoSongs).get_next_track_uri
        = some "uriA"
    ∧ (runCycle ⟨some "uriA", true, fun _ => true⟩
        ⟨QueueManager.mkInitial demoResolver demoSongs,
          some "uriA", none, false⟩).injected = true
    ∧ (runCycle ⟨some "uriA", true, fun _ => true⟩
        ⟨QueueManager.mkInitial demoResolver demoSongs,
          some "uriA", none, false⟩).state.last_injected_uri = some "uriA"
    ∧ (runCycle ⟨some "uriA", true, fun _ => true⟩
        ⟨QueueManager.mkInitial demoResolver demoSongs,
          some "uriA", none, false⟩).state.qm.queue_length = 2
    ∧ (runCycle ⟨some "uriA", true, fun _ => true⟩
        ⟨QueueManager.mkInitial demoResolver demoSongs,
          some "uriA", none, false⟩).state.qm.get_next_track_uri
        = some "uriB" := by
  refine ⟨?_, ?_, ?_, ?_, ?_, ?_, ?_, ?_, ?_⟩ <;> decide

end SpotifyDJ
